import Mathlib

/-!
Shallow embedding of the NoirHQ engine-sidecar bridge layer.

Bytes are modelled as `List Nat` (each entry a byte value), machine
integers as `Nat`, Rust `Result` as `Except`, and a Rust `panic!` /
`unimplemented!()` outcome as the dedicated `PanicOr` type.  External
library calls (secp256k1 recovery, keccak256) are passed in as explicit
oracle functions, since their implementations live outside this
repository; everything else is translated from the repository sources,
file by file as annotated below.
-/

/-- Outcome of a Rust computation that can panic: either it panics
(`unwrap` on `None`/`Err`, or an `unimplemented!()` placeholder) or it
returns a value. -/
inductive PanicOr (α : Type) where
  | panicked
  | ok (val : α)
deriving DecidableEq, Repr

instance {ε α : Type} [DecidableEq ε] [DecidableEq α] : DecidableEq (Except ε α) := fun a b =>
  match a, b with
  | .ok x, .ok y =>
    match decEq x y with
    | .isTrue h => .isTrue (by rw [h])
    | .isFalse h => .isFalse (by intro hc; cases hc; exact h rfl)
  | .error x, .error y =>
    match decEq x y with
    | .isTrue h => .isTrue (by rw [h])
    | .isFalse h => .isFalse (by intro hc; cases hc; exact h rfl)
  | .ok _, .error _ => .isFalse (by intro hc; cases hc)
  | .error _, .ok _ => .isFalse (by intro hc; cases hc)

/-- Big-endian byte encoding of a natural number into a fixed number of
bytes (most significant byte first), as done by `to_be_bytes::<32>` in
src/vendor/reth/crates/primitives-traits/src/crypto.rs. -/
def nat_to_be_bytes : Nat → Nat → List Nat
  | 0, _ => []
  | w + 1, n => nat_to_be_bytes w (n / 256) ++ [n % 256]

/-- Address codec from src/sidecar/src/rpc/eth.rs (`to_aptos_address`):
a 32-byte buffer is zero-initialised and the 20 input bytes are copied
into positions 12..32, i.e. the result is 12 zero bytes followed by the
Ethereum address bytes. -/
def to_aptos_address (address : List Nat) : List Nat :=
  List.replicate 12 0 ++ address

/-- The concrete Ethereum address of scenario S1,
0xC96aAa54E2d44c299564da76e1cD3184A2386B8D, as its 20 bytes. -/
def s1_eth_address : List Nat :=
  [0xC9, 0x6a, 0xAa, 0x54, 0xE2, 0xd4, 0x4c, 0x29, 0x95, 0x64,
   0xda, 0x76, 0xe1, 0xcD, 0x31, 0x84, 0xA2, 0x38, 0x6B, 0x8D]

/-- The expected 32-byte Aptos address of scenario S1,
0x000000000000000000000000C96aAa54E2d44c299564da76e1cD3184A2386B8D. -/
def s1_aptos_address : List Nat :=
  [0, 0, 0, 0, 0, 0, 0, 0, 0, 0, 0, 0,
   0xC9, 0x6a, 0xAa, 0x54, 0xE2, 0xd4, 0x4c, 0x29, 0x95, 0x64,
   0xda, 0x76, 0xe1, 0xcD, 0x31, 0x84, 0xA2, 0x38, 0x6B, 0x8D]

/-- Configuration section `engine.basic` from
src/sidecar/src/config/engine.rs (`EngineBasicConfig`): three optional
strings, deserialized from TOML without any further validation.  The
Lean fields carry an `_opt` suffix because the accessor methods below
keep the Rust method names. -/
structure EngineBasicConfig where
  coin_type_opt : Option String
  auth_func_opt : Option String
  entry_func_opt : Option String
deriving DecidableEq, Repr

/-- Accessor `EngineBasicConfig::coin_type` (config/engine.rs lines
48-52): the configured string or the default. -/
def EngineBasicConfig.coin_type (c : EngineBasicConfig) : String :=
  c.coin_type_opt.getD "0x1::aptos_coin::AptosCoin"

/-- Accessor `EngineBasicConfig::auth_func` (config/engine.rs lines
54-58): the configured string or the default. -/
def EngineBasicConfig.auth_func (c : EngineBasicConfig) : String :=
  c.auth_func_opt.getD "0x100::evm::authenticate"

/-- Accessor `EngineBasicConfig::entry_func` (config/engine.rs lines
60-64).  The Rust body reads `self.auth_func` (line 61), not
`self.entry_func`, before falling back to the default; the embedding
reproduces that read faithfully. -/
def EngineBasicConfig.entry_func (c : EngineBasicConfig) : String :=
  c.auth_func_opt.getD "0x100::evm::transact"

/-- Structural worker for `uleb128`: the first argument is fuel, always
called with at least the value itself, which bounds the number of
7-bit groups. -/
def uleb128_fuel : Nat → Nat → List Nat
  | 0, n => [n]
  | fuel + 1, n =>
    if n < 128 then [n]
    else (n % 128 + 128) :: uleb128_fuel fuel (n / 128)

/-- ULEB128 encoding of a length, used by BCS for the length prefix of a
`Vec<u8>`: seven value bits per byte, least significant group first,
high bit set on every byte except the last. -/
def uleb128 (n : Nat) : List Nat :=
  uleb128_fuel n n

/-- BCS encoding of a `Vec<u8>` value (`bcs::to_bytes(&tx)` in
src/sidecar/src/engine/adapter/client.rs): ULEB128 length prefix
followed by the raw bytes. -/
def bcs_bytes (v : List Nat) : List Nat :=
  uleb128 v.length ++ v

/-- BCS encoding of an `AccountAddress` (`bcs::to_bytes(&sender)` in
src/sidecar/src/engine/adapter/client.rs): a fixed 32-byte array is
serialized as its raw bytes, with no length prefix. -/
def bcs_address (a : List Nat) : List Nat :=
  a

/-- Numeric value of one hexadecimal digit character, or `none`. -/
def hex_digit_value (c : Char) : Option Nat :=
  if 48 ≤ c.toNat ∧ c.toNat ≤ 57 then some (c.toNat - 48)
  else if 97 ≤ c.toNat ∧ c.toNat ≤ 102 then some (c.toNat - 87)
  else if 65 ≤ c.toNat ∧ c.toNat ≤ 70 then some (c.toNat - 55)
  else none

/-- Value of a string of hexadecimal digits, most significant first, or
`none` when any character is not a hex digit. -/
def hex_value : List Char → Option Nat
  | [] => some 0
  | c :: cs =>
    match hex_digit_value c, hex_value cs with
    | some d, some rest => some (d * 16 ^ cs.length + rest)
    | _, _ => none

/-- Modelled from the spec: the `AccountAddress` hex parsing used by the
`module::member` and `function_info` string parsers (the file
move-core/types/src/account_address.rs is not under src/).  Per the spec
an address is written as 0x-prefixed hex (for example `0x100` or
`0x1`); at most 64 hex digits are accepted and the value is left-padded
to 32 bytes. -/
def address_from_hex (cs : List Char) : Option (List Nat) :=
  let digits := match cs with
    | '0' :: 'x' :: rest => rest
    | other => other
  if digits = [] ∨ 64 < digits.length then none
  else (hex_value digits).map (nat_to_be_bytes 32)

/-- Splitting a character list at every occurrence of a separator
character; used to break `addr::module::member` strings apart. -/
def split_on_char (sep : Char) : List Char → List (List Char)
  | [] => [[]]
  | c :: cs =>
    match split_on_char sep cs with
    | [] => if c = sep then [[], [c]] else [[c]]
    | r :: rs => if c = sep then [] :: r :: rs else (c :: r) :: rs

/-- Move module identity (`ModuleId` from move-core, declared in
src/vendor/aptos-core/third_party/move/move-core/types/src/lib.rs but
with its file absent from src/): a 32-byte account address plus a module
name. -/
structure ModuleId where
  address : List Nat
  name : String
deriving DecidableEq, Repr

/-- Member identity (`MemberId` from aptos-types `move_utils`, declared
in src/vendor/aptos-core/types/src/lib.rs but with its file absent from
src/): a module id plus a member name, as consumed by
`AAClient::get_aa_transaction` through `entry_func.module_id` and
`entry_func.member_id`. -/
structure MemberId where
  module_id : ModuleId
  member_id : String
deriving DecidableEq, Repr

/-- On-chain function identity (`FunctionInfo` from aptos-types
`function_info`, declared in src/vendor/aptos-core/types/src/lib.rs but
with its file absent from src/): module address, module name and
function name. -/
structure FunctionInfo where
  module_address : List Nat
  module_name : String
  function_name : String
deriving DecidableEq, Repr

/-- Parts of an `a::b::c` string: the input split on single colons must
produce exactly `[a, "", b, "", c]` with the three payload parts
nonempty. -/
def double_colon_parts (s : String) : Option (List Char × List Char × List Char) :=
  match split_on_char ':' s.data with
  | [a, [], b, [], c] =>
    if a = [] ∨ b = [] ∨ c = [] then none else some (a, b, c)
  | _ => none

/-- Modelled from the spec: `MemberId::from_str` (aptos-types
`move_utils`, absent from src/), which per spec section 4.4 parses
`entry_func` as `module::member`, a module being `address::name`; the
whole string is `addr::module_name::member_name`. -/
def MemberId.from_str (s : String) : Option MemberId :=
  match double_colon_parts s with
  | none => none
  | some (a, b, c) =>
    match address_from_hex a with
    | none => none
    | some addr => some { module_id := { address := addr, name := b.asString },
                          member_id := c.asString }

/-- Modelled from the spec: `FunctionInfo::from_str` (aptos-types
`function_info`, absent from src/), which per spec sections 4.4 and 6
parses `auth_func` as a `function_info` string of the shape
`<addr>::<module>::<func>`. -/
def FunctionInfo.from_str (s : String) : Option FunctionInfo :=
  match double_colon_parts s with
  | none => none
  | some (a, b, c) =>
    match address_from_hex a with
    | none => none
    | some addr => some { module_address := addr, module_name := b.asString,
                          function_name := c.asString }

/-- Move type tag, the element type of an entry function's `ty_args`
list.  The bridge always passes an empty `ty_args` list, so the tags
themselves are represented by their display strings. -/
abbrev TypeTag := String

/-- Entry-function payload from
src/vendor/aptos-core/types/src/transaction/script.rs
(`EntryFunction`): module id, function name, type arguments and
BCS-encoded value arguments. -/
structure EntryFunction where
  module : ModuleId
  function : String
  ty_args : List TypeTag
  args : List (List Nat)
deriving DecidableEq, Repr

/-- Constructor `EntryFunction::new` (script.rs lines 24-36). -/
def EntryFunction.new (module : ModuleId) (function : String)
    (ty_args : List TypeTag) (args : List (List Nat)) : EntryFunction :=
  { module, function, ty_args, args }

/-- Transaction payload from
src/vendor/aptos-core/types/src/transaction/mod.rs
(`TransactionPayload`): in this vendored copy the only live variant is
`EntryFunction`. -/
inductive TransactionPayload where
  | EntryFunction (ef : EntryFunction)
deriving DecidableEq, Repr

/-- Raw transaction from
src/vendor/aptos-core/types/src/transaction/mod.rs (`RawTransaction`). -/
structure RawTransaction where
  sender : List Nat
  sequence_number : Nat
  payload : TransactionPayload
  max_gas_amount : Nat
  gas_unit_price : Nat
  expiration_timestamp_secs : Nat
  chain_id : Nat
deriving DecidableEq, Repr

/-- Abstraction authentication data from
src/vendor/aptos-core/types/src/transaction/authenticator.rs
(`AbstractionAuthData`): variants `V1` and `DerivableV1`, all fields raw
byte vectors. -/
inductive AbstractionAuthData where
  | V1 (signing_message_digest : List Nat) (authenticator : List Nat)
  | DerivableV1 (signing_message_digest : List Nat)
      (abstract_signature : List Nat) (abstract_public_key : List Nat)
deriving DecidableEq, Repr

/-- Account authenticator from authenticator.rs
(`AccountAuthenticator`): in this vendored copy the only live variant is
`Abstraction`. -/
inductive AccountAuthenticator where
  | Abstraction (function_info : FunctionInfo) (auth_data : AbstractionAuthData)
deriving DecidableEq, Repr

/-- Helper `AccountAuthenticator::abstraction` (authenticator.rs lines
129-142): wraps the pieces into the `Abstraction` variant with a `V1`
auth data. -/
def AccountAuthenticator.abstraction (function_info : FunctionInfo)
    (signing_message_digest : List Nat) (authenticator : List Nat) :
    AccountAuthenticator :=
  .Abstraction function_info (.V1 signing_message_digest authenticator)

/-- Transaction authenticator from authenticator.rs
(`TransactionAuthenticator`): in this vendored copy the only live
variant is `SingleSender`. -/
inductive TransactionAuthenticator where
  | SingleSender (sender : AccountAuthenticator)
deriving DecidableEq, Repr

/-- Helper `TransactionAuthenticator::single_sender` (authenticator.rs
lines 50-53). -/
def TransactionAuthenticator.single_sender (sender : AccountAuthenticator) :
    TransactionAuthenticator :=
  .SingleSender sender

/-- Signed transaction from
src/vendor/aptos-core/types/src/transaction/mod.rs
(`SignedTransaction`), without the cached-size `OnceCell` fields, which
carry no information (`PartialEq` on the Rust type ignores them too). -/
structure SignedTransaction where
  raw_txn : RawTransaction
  authenticator : TransactionAuthenticator
deriving DecidableEq, Repr

/-- Constructor `SignedTransaction::new_single_sender`
(transaction/mod.rs lines 142-150). -/
def SignedTransaction.new_single_sender (raw_txn : RawTransaction)
    (authenticator : AccountAuthenticator) : SignedTransaction :=
  { raw_txn, authenticator := TransactionAuthenticator.single_sender authenticator }

/-- Production value of `GAS_UNIT_PRICE` from
src/vendor/aptos-core/config/global-constants/src/lib.rs. -/
def GAS_UNIT_PRICE : Nat := 100

/-- Production value of `MAX_GAS_AMOUNT` from
src/vendor/aptos-core/config/global-constants/src/lib.rs. -/
def MAX_GAS_AMOUNT : Nat := 2000000

/-- Transaction builder from
src/vendor/aptos-core/sdk/src/transaction_builder.rs
(`TransactionBuilder`): sender and sequence number start unset and are
`expect`ed at build time. -/
structure TransactionBuilder where
  sender : Option (List Nat)
  sequence_number : Option Nat
  payload : TransactionPayload
  max_gas_amount : Nat
  gas_unit_price : Nat
  expiration_timestamp_secs : Nat
  chain_id : Nat

/-- Constructor `TransactionBuilder::new` (transaction_builder.rs lines
23-38): gas defaults are `MAX_GAS_AMOUNT` and
`max(GAS_UNIT_PRICE, 1)`. -/
def TransactionBuilder.new (payload : TransactionPayload)
    (expiration_timestamp_secs : Nat) (chain_id : Nat) : TransactionBuilder :=
  { sender := none, sequence_number := none, payload,
    max_gas_amount := MAX_GAS_AMOUNT,
    gas_unit_price := max GAS_UNIT_PRICE 1,
    expiration_timestamp_secs, chain_id }

/-- Method `TransactionBuilder::build` (transaction_builder.rs lines
70-81): panics (`expect`) when sender or sequence number was never
set. -/
def TransactionBuilder.build (b : TransactionBuilder) : PanicOr RawTransaction :=
  match b.sender, b.sequence_number with
  | some s, some n =>
    .ok { sender := s, sequence_number := n, payload := b.payload,
          max_gas_amount := b.max_gas_amount,
          gas_unit_price := b.gas_unit_price,
          expiration_timestamp_secs := b.expiration_timestamp_secs,
          chain_id := b.chain_id }
  | _, _ => .panicked

/-- Account-abstraction client from
src/sidecar/src/engine/adapter/client.rs (`AAClient`), keeping the two
configured function strings and the configured chain id and timeout
(the HTTP `api_client` is an I/O handle and does not participate in
transaction construction). -/
structure AAClient where
  auth_func : String
  entry_func : String
  chain_id : Nat
  timeout : Nat

/-- Method `AAClient::get_aa_transaction` (client.rs lines 90-128).
`MemberId::from_str(..).unwrap()` and `FunctionInfo::from_str(..)
.unwrap()` panic on parse failure, hence the `PanicOr` result; `now` is
the `SystemTime::now()` Unix-seconds reading taken inside the method. -/
def AAClient.get_aa_transaction (c : AAClient) (tx : List Nat)
    (sender : List Nat) (sequence_number : Nat) (max_gas_amount : Nat)
    (gas_unit_price : Nat) (chain_id : Nat) (timeout : Nat) (now : Nat) :
    PanicOr SignedTransaction :=
  match MemberId.from_str c.entry_func with
  | none => .panicked
  | some entry_func =>
    let builder :=
      { TransactionBuilder.new
          (TransactionPayload.EntryFunction (EntryFunction.new
            entry_func.module_id entry_func.member_id []
            [bcs_address sender, bcs_bytes tx]))
          (now + timeout) chain_id with
        sender := some sender,
        sequence_number := some sequence_number,
        max_gas_amount := max_gas_amount,
        gas_unit_price := gas_unit_price }
    match builder.build with
    | .panicked => .panicked
    | .ok raw_transaction =>
      match FunctionInfo.from_str c.auth_func with
      | none => .panicked
      | some fi =>
        .ok (SignedTransaction.new_single_sender raw_transaction
          (AccountAuthenticator.abstraction fi [] []))

/-- The EIP-2 bound `SECP256K1N_HALF` (secp256k1 group order divided by
two), the constant compared against in
src/vendor/reth/crates/primitives-traits/src/crypto.rs line 43. -/
def SECP256K1N_HALF : Nat :=
  0x7FFFFFFFFFFFFFFFFFFFFFFFFFFFFFFF5D576E7357A4501DDFE92F46681B20A0

/-- ECDSA signature as carried by a decoded Ethereum transaction:
`(r, s, y_parity)`. -/
structure Signature where
  r : Nat
  s : Nat
  v : Bool
deriving DecidableEq, Repr

/-- Outcome type of signer recovery, from
src/vendor/reth/primitives-traits/src/transaction/signed.rs
(`RecoveryError`). -/
inductive RecoveryError where
  | recoveryError
deriving DecidableEq, Repr

/-- Oracle standing for `impl_secp256k1::recover_signer_unchecked`
(crypto.rs lines 65-74): the external secp256k1 public-key recovery plus
keccak address derivation, taking the 65-byte compact signature and the
32-byte message hash and returning a 20-byte address or a library
error. -/
abbrev EcRecoverOracle := List Nat → List Nat → Except Unit (List Nat)

/-- Function `secp256k1::recover_signer_unchecked` from
src/vendor/reth/crates/primitives-traits/src/crypto.rs lines 22-35:
assembles `r`, `s` and the parity byte into a 65-byte compact signature
and hands it to the library, mapping any library error to
`RecoveryError`.  No bound on `s` is checked. -/
def recover_signer_unchecked (imp : EcRecoverOracle) (signature : Signature)
    (hash : List Nat) : Except RecoveryError (List Nat) :=
  let sig := nat_to_be_bytes 32 signature.r ++ nat_to_be_bytes 32 signature.s
      ++ [if signature.v then 1 else 0]
  match imp sig hash with
  | .ok a => .ok a
  | .error _ => .error .recoveryError

/-- Function `secp256k1::recover_signer` from crypto.rs lines 42-47: the
strict EIP-2 path, which rejects any `s` above `SECP256K1N_HALF` before
delegating to the unchecked path. -/
def recover_signer (imp : EcRecoverOracle) (signature : Signature)
    (hash : List Nat) : Except RecoveryError (List Nat) :=
  if SECP256K1N_HALF < signature.s then .error .recoveryError
  else recover_signer_unchecked imp signature hash

/-- JSON-RPC error object (jsonrpsee `ErrorObject` restricted to the
fields this repository ever sets: code and message; the optional data
field is always `None` on these paths). -/
structure ErrorObject where
  code : Int
  message : String
deriving DecidableEq, Repr

/-- The jsonrpsee `INTERNAL_ERROR_CODE` constant (-32603). -/
def INTERNAL_ERROR_CODE : Int := -32603

/-- Function `internal_error` from src/sidecar/src/rpc/eth.rs lines
517-519: an error object with the internal error code and the given
message. -/
def internal_error (message : String) : ErrorObject :=
  { code := INTERNAL_ERROR_CODE, message }

/-- Function `internal_rpc_err` from
src/vendor/reth/crates/rpc/rpc-server-types/src/result.rs lines 4-6:
an internal JSON-RPC error with the given message and no data. -/
def internal_rpc_err (msg : String) : ErrorObject :=
  { code := INTERNAL_ERROR_CODE, message := msg }

/-- Error enum `EthApiError` from
src/vendor/reth/crates/rpc/rpc-eth-types/src/error/mod.rs. -/
inductive EthApiError where
  | EmptyRawTransactionData
  | FailedToDecodeSignedTransaction
  | InvalidTransactionSignature
deriving DecidableEq, Repr

/-- Display strings of `EthApiError` as given by its `thiserror`
attributes (error/mod.rs lines 24-34). -/
def EthApiError.to_string : EthApiError → String
  | .EmptyRawTransactionData => "empty transaction data"
  | .FailedToDecodeSignedTransaction => "failed to decode signed transaction"
  | .InvalidTransactionSignature => "invalid transaction signature"

/-- Conversion `From<EthApiError> for ErrorObject` (error/mod.rs lines
36-44): every variant becomes `internal_rpc_err` of its display
string. -/
def EthApiError.into_rpc (e : EthApiError) : ErrorObject :=
  internal_rpc_err e.to_string

/-- Decoded signed Ethereum transaction at the EIP-2718 envelope level:
the type tag and the consumed wire bytes (the RLP list item holding the
fields and signature).  The field-level RLP decoding lives in the
external alloy crates; the envelope split and cursor behavior below are
the dispatch implemented in src/vendor/reth/crates/ethereum/primitives/
src/transaction.rs (`Decodable2718 for TransactionSigned`). -/
structure TransactionSigned where
  tx_type : Nat
  body : List Nat
deriving DecidableEq, Repr

/-- Method `encoded_2718` for the signed transaction (the encoding used
by `recalculate_hash` in src/vendor/reth/primitives-traits/src/
transaction/signed.rs line 89): legacy transactions are their RLP bytes,
typed transactions are the type byte followed by the payload. -/
def encoded_2718 (t : TransactionSigned) : List Nat :=
  if t.tx_type = 0 then t.body else t.tx_type :: t.body

/-- Big-endian value of a list of bytes, used for the length field of a
long-form RLP header. -/
def be_value (bytes : List Nat) : Nat :=
  bytes.foldl (fun acc b => acc * 256 + b) 0

/-- RLP framing of the first item of a buffer when that item is a list
(the only shape a signed-transaction payload may have): returns the
item's bytes (header included) and the remaining bytes of the buffer.
Short-form lists (header byte 0xc0 to 0xf7) carry their payload length
in the header; long-form lists (0xf8 to 0xff) carry a big-endian length
whose canonical form has no leading zero byte and a value of at least
56.  A buffer that does not start with a list header, or whose declared
payload overruns the buffer, has no frame.  The item framing determines
how many bytes the external RLP decoder consumes; any bytes after the
item are left in the cursor. -/
def rlp_list_frame (data : List Nat) : Option (List Nat × List Nat) :=
  match data with
  | [] => none
  | b :: rest =>
    if 0xc0 ≤ b ∧ b ≤ 0xf7 then
      if b - 0xc0 ≤ rest.length then
        some (b :: rest.take (b - 0xc0), rest.drop (b - 0xc0))
      else none
    else if 0xf8 ≤ b ∧ b ≤ 0xff then
      if b - 0xf7 ≤ rest.length then
        if (rest.take (b - 0xf7)).headD 0 ≠ 0 ∧
            56 ≤ be_value (rest.take (b - 0xf7)) ∧
            be_value (rest.take (b - 0xf7)) ≤ (rest.drop (b - 0xf7)).length then
          some (b :: rest.take (b - 0xf7)
                  ++ (rest.drop (b - 0xf7)).take (be_value (rest.take (b - 0xf7))),
                (rest.drop (b - 0xf7)).drop (be_value (rest.take (b - 0xf7))))
        else none
      else none
    else none

/-- EIP-2718 envelope decoding as dispatched by `Decodable2718 for
TransactionSigned` (transaction.rs lines 471-521), with the cursor
semantics of the alloy decoder: a first byte at 0x80 or above falls
back to legacy RLP decoding of one list item; a first byte of 0 is
rejected (`UnexpectedType`); type bytes 1 to 4 decode one RLP list item
after the type byte as the typed payload; any other type byte is
rejected.  The decoder consumes exactly the envelope and returns the
unread remainder of the buffer alongside the transaction; no caller in
the pipeline checks that this remainder is empty. -/
def decode_2718 (data : List Nat) : Option (TransactionSigned × List Nat) :=
  match data with
  | [] => none
  | b :: rest =>
    if 0x80 ≤ b then
      match rlp_list_frame (b :: rest) with
      | none => none
      | some (item, leftover) => some ({ tx_type := 0, body := item }, leftover)
    else if 1 ≤ b ∧ b ≤ 4 then
      match rlp_list_frame rest with
      | none => none
      | some (item, leftover) => some ({ tx_type := b, body := item }, leftover)
    else none

/-- Account record returned by the adapter's `get_account`
(src/vendor/aptos-core/crates/aptos-rest-client/src/types.rs,
`Account`). -/
structure Account where
  authentication_key : List Nat
  sequence_number : Nat
deriving DecidableEq, Repr

/-- Pending-transaction acknowledgement from the Aptos node, reduced to
the transaction hash it reports (aptos-api-types
`PendingTransaction`). -/
structure PendingTransaction where
  hash : List Nat
deriving DecidableEq, Repr

/-- Adapter operations observable during one `eth_sendRawTransaction`
request, used to record the call trace of the translation pipeline. -/
inductive AdapterCall where
  | getAccount (address : List Nat)
  | submitTransaction (sender : List Nat) (transaction : List Nat)
deriving DecidableEq, Repr

/-- Per-request environment of the `eth_sendRawTransaction` pipeline:
the external keccak256 function, the external signer-recovery result for
the decoded transaction, and the results the engine adapter's two
operations would produce on this request. -/
structure SendEnv where
  keccak256 : List Nat → List Nat
  recover : TransactionSigned → Except Unit (List Nat)
  get_account_result : Except String Account
  submit_result : Except String PendingTransaction

/-- Recovered transaction: the decoded transaction together with its
recovered signer (alloy `Recovered<TransactionSigned>`). -/
structure Recovered where
  tx : TransactionSigned
  signer : List Nat

/-- Function `recover_raw_transaction` from
src/vendor/reth/crates/rpc/rpc-eth-types/src/utils.rs lines 13-24: empty
input fails with `EmptyRawTransactionData`, a failed envelope decode
with `FailedToDecodeSignedTransaction`, a failed signer recovery with
`InvalidTransactionSignature`.  The decode advances a cursor over the
input; bytes left unread after the envelope are discarded without any
check that the buffer was exhausted. -/
def recover_raw_transaction (env : SendEnv) (data : List Nat) :
    Except EthApiError Recovered :=
  if data = [] then .error .EmptyRawTransactionData
  else match decode_2718 data with
    | none => .error .FailedToDecodeSignedTransaction
    | some (t, _leftover) =>
      match env.recover t with
      | .error _ => .error .InvalidTransactionSignature
      | .ok signer => .ok { tx := t, signer }

/-- Modelled from the spec: the `(sender, raw_bytes)` implementation of
`EngineAdapter::submit_transaction` (the trait is declared in
src/sidecar/src/engine/adapter/mod.rs but the implementation fetching
the account before submitting is absent from src/).  Per spec sections
4.4 and 8 (invariant 5) it first calls `get_account(sender)` for the
sequence number and only on success submits the built transaction; the
returned list records the adapter calls in order. -/
def adapter_submit_transaction (env : SendEnv) (sender : List Nat)
    (transaction : List Nat) :
    Except String PendingTransaction × List AdapterCall :=
  match env.get_account_result with
  | .error e => (.error e, [.getAccount sender])
  | .ok _account =>
    match env.submit_result with
    | .error e => (.error e, [.getAccount sender, .submitTransaction sender transaction])
    | .ok p => (.ok p, [.getAccount sender, .submitTransaction sender transaction])

/-- Handler `EthApi::send_raw_transaction` from src/sidecar/src/rpc/
eth.rs lines 447-466: decode and recover the raw bytes, derive the Aptos
sender address from the recovered signer, submit through the adapter,
and return `recovered.hash()`, which is keccak256 of the transaction's
EIP-2718 encoding; adapter errors surface as `internal_error`.  The
second component is the adapter call trace. -/
def send_raw_transaction (env : SendEnv) (bytes : List Nat) :
    Except ErrorObject (List Nat) × List AdapterCall :=
  match recover_raw_transaction env bytes with
  | .error e => (.error e.into_rpc, [])
  | .ok recovered =>
    let sender := to_aptos_address recovered.signer
    match adapter_submit_transaction env sender bytes with
    | (.error e, calls) => (.error (internal_error e), calls)
    | (.ok _pending, calls) =>
      (.ok (env.keccak256 (encoded_2718 recovered.tx)), calls)

/-- Ledger summary from
src/vendor/aptos-core/api/types/src/index.rs (`IndexResponse`), keeping
its numeric fields (`node_role` and `git_hash` carry no data the bridge
reads). -/
structure IndexResponse where
  chain_id : Nat
  epoch : Nat
  ledger_version : Nat
  oldest_ledger_version : Nat
  ledger_timestamp : Nat
  oldest_block_height : Nat
  block_height : Nat
deriving DecidableEq, Repr

/-- Engine adapter as seen by one RPC request: the resolved outcome of
each adapter operation the handlers may invoke, with `PanicOr` recording
that an operation may itself be an `unimplemented!()` placeholder
(src/sidecar/src/engine/adapter/mod.rs declares the capability set). -/
structure EngineAdapter where
  get_ledger_info : PanicOr (Except String IndexResponse)
  get_account_balance : List Nat → PanicOr (Except String Nat)

/-- Remote adapter (src/sidecar/src/engine/adapter/remote.rs,
`RemoteEngineAdapter`): each operation performs HTTP I/O and produces a
result or a domain error, never a panic; the request outcomes are the
parameters. -/
def RemoteEngineAdapter (ledger : Except String IndexResponse)
    (balance : List Nat → Except String Nat) : EngineAdapter :=
  { get_ledger_info := .ok ledger,
    get_account_balance := fun a => .ok (balance a) }

/-- Local adapter (src/sidecar/src/engine/adapter/local.rs,
`LocalEngineAdapter`): every operation is `unimplemented!()` (lines
53-81), i.e. panics when invoked. -/
def LocalEngineAdapter : EngineAdapter :=
  { get_ledger_info := .panicked,
    get_account_balance := fun _ => .panicked }

/-- RPC handler state from src/sidecar/src/rpc/eth.rs (`EthApi`): the
engine adapter it was constructed over. -/
structure EthApi where
  adapter : EngineAdapter

/-- Handler `EthApi::chain_id` (rpc/eth.rs lines 82-92): forwards
`get_ledger_info`, mapping an adapter error to `internal_error` and a
success to `Some` of the ledger's `chain_id` widened from u8 to u64
(`U64::from(ledger_info.chain_id)`, an exact conversion).  A panic
inside the adapter propagates. -/
def EthApi.chain_id (api : EthApi) : PanicOr (Except ErrorObject (Option Nat)) :=
  match api.adapter.get_ledger_info with
  | .panicked => .panicked
  | .ok (.error e) => .ok (.error (internal_error e))
  | .ok (.ok ledger_info) => .ok (.ok (some ledger_info.chain_id))

/-- Handler `EthApi::block_number` (rpc/eth.rs lines 77-79): the body is
`unimplemented!()`, so every invocation panics regardless of the
adapter's ledger state. -/
def EthApi.block_number (_api : EthApi) : PanicOr (Except ErrorObject Nat) :=
  .panicked

/-- Handler `EthApi::protocol_version` (rpc/eth.rs lines 57-59): the
body is `unimplemented!()`, so every invocation panics. -/
def EthApi.protocol_version (_api : EthApi) : PanicOr (Except ErrorObject Nat) :=
  .panicked

/-- Handler `EthApi::balance` (rpc/eth.rs lines 234-253): forwards
`get_account_balance` of the padded Aptos address, mapping an adapter
error to `internal_error`.  A panic inside the adapter propagates. -/
def EthApi.balance (api : EthApi) (address : List Nat) :
    PanicOr (Except ErrorObject Nat) :=
  match api.adapter.get_account_balance (to_aptos_address address) with
  | .panicked => .panicked
  | .ok (.error e) => .ok (.error (internal_error e))
  | .ok (.ok balance) => .ok (.ok balance)

/-- Concrete `AAClient` carrying the default configuration strings. -/
def aa_client_example : AAClient :=
  { auth_func := "0x100::evm::authenticate",
    entry_func := "0x100::evm::transact", chain_id := 4, timeout := 30 }

/-- The signed transaction `aa_client_example` builds for the raw bytes
`[1, 2, 3]`, sender `0`, sequence number 7, gas 200 at unit price 1,
chain id 4, timeout 30 and clock reading 1000. -/
def aa_signed_transaction_example : SignedTransaction :=
  { raw_txn :=
      { sender := List.replicate 32 0, sequence_number := 7,
        payload := TransactionPayload.EntryFunction
          (EntryFunction.new { address := nat_to_be_bytes 32 256, name := "evm" }
            "transact" [] [List.replicate 32 0, [3, 1, 2, 3]]),
        max_gas_amount := 200, gas_unit_price := 1,
        expiration_timestamp_secs := 1030, chain_id := 4 },
    authenticator := TransactionAuthenticator.SingleSender
      (AccountAuthenticator.Abstraction
        { module_address := nat_to_be_bytes 32 256, module_name := "evm",
          function_name := "authenticate" }
        (AbstractionAuthData.V1 [] [])) }

/-- Concrete `AAClient` whose configured strings do not parse as
`module::member` or `function_info`. -/
def aa_client_bad : AAClient :=
  { auth_func := "bad", entry_func := "also::bad", chain_id := 0, timeout := 0 }

/-- Concrete secp256k1 oracle that recovers a fixed address. -/
def ec_oracle_const : EcRecoverOracle := fun _ _ => .ok (List.replicate 20 1)

/-- Concrete signature whose `s` component exceeds the EIP-2 bound. -/
def sig_high_s : Signature := { r := 1, s := SECP256K1N_HALF + 1, v := false }

/-- Concrete signature whose `s` component is within the EIP-2 bound. -/
def sig_low_s : Signature := { r := 1, s := 1, v := false }

/-- Concrete pipeline environment in which decoding, recovery, account
fetch and submission all succeed. -/
def send_env_example : SendEnv :=
  { keccak256 := fun l => l,
    recover := fun _ => .ok (List.replicate 20 9),
    get_account_result :=
      .ok { authentication_key := List.replicate 32 0, sequence_number := 7 },
    submit_result := .ok { hash := [1] } }

/-- Concrete pipeline environment in which the adapter's `get_account`
fails. -/
def send_env_no_account : SendEnv :=
  { send_env_example with get_account_result := .error "account not found" }

/-- Concrete minimal legacy transaction wire bytes: an RLP list of nine
fields (nonce 0, gas price 0, gas limit 0, create `to`, value 0, empty
data, v = 27, r = 1, s = 1), i.e. header 0xc9 followed by nine payload
bytes. -/
def legacy_tx_example : List Nat :=
  [0xc9, 0x80, 0x80, 0x80, 0x80, 0x80, 0x80, 0x1b, 0x01, 0x01]

/-- The same legacy transaction with one trailing junk byte appended:
the envelope decoder consumes only the first ten bytes and the pipeline
never checks for the leftover. -/
def legacy_tx_with_trailing : List Nat :=
  legacy_tx_example ++ [0x99]

/-- Concrete ledger summary with chain id 4 and block height 5. -/
def ledger_info_example : IndexResponse :=
  { chain_id := 4, epoch := 1, ledger_version := 10, oldest_ledger_version := 0,
    ledger_timestamp := 100, oldest_block_height := 0, block_height := 5 }

/-- RPC handler state over a remote adapter that reports
`ledger_info_example` and a balance of 42. -/
def api_remote_example : EthApi :=
  { adapter := RemoteEngineAdapter (.ok ledger_info_example) (fun _ => .ok 42) }

/-- RPC handler state over the local in-process adapter. -/
def api_local : EthApi :=
  { adapter := LocalEngineAdapter }

/-- An RLP list frame splits the buffer: the framed item followed by
the leftover bytes is the original buffer. -/
theorem rlp_list_frame_append {data item rest : List Nat}
    (h : rlp_list_frame data = some (item, rest)) : item ++ rest = data := by
  cases data with
  | nil => simp [rlp_list_frame] at h
  | cons b bs =>
    simp only [rlp_list_frame] at h
    by_cases h1 : 0xc0 ≤ b ∧ b ≤ 0xf7
    · rw [if_pos h1] at h
      by_cases h2 : b - 0xc0 ≤ bs.length
      · rw [if_pos h2] at h
        obtain ⟨rfl, rfl⟩ := Prod.mk.injEq _ _ _ _ ▸ Option.some.injEq _ _ ▸ h
        simp [List.take_append_drop]
      · rw [if_neg h2] at h
        exact Option.noConfusion h
    · rw [if_neg h1] at h
      by_cases h3 : 0xf8 ≤ b ∧ b ≤ 0xff
      · rw [if_pos h3] at h
        by_cases h4 : b - 0xf7 ≤ bs.length
        · rw [if_pos h4] at h
          by_cases h5 : (bs.take (b - 0xf7)).headD 0 ≠ 0 ∧
              56 ≤ be_value (bs.take (b - 0xf7)) ∧
              be_value (bs.take (b - 0xf7)) ≤ (bs.drop (b - 0xf7)).length
          · rw [if_pos h5] at h
            obtain ⟨rfl, rfl⟩ := Prod.mk.injEq _ _ _ _ ▸ Option.some.injEq _ _ ▸ h
            simp only [List.cons_append, List.append_assoc, List.take_append_drop]
          · rw [if_neg h5] at h
            exact Option.noConfusion h
        · rw [if_neg h4] at h
          exact Option.noConfusion h
      · rw [if_neg h3] at h
        exact Option.noConfusion h

/-- Envelope decoding splits the buffer: re-encoding the accepted
transaction and appending the unread leftover restores the exact input
bytes (so the re-encoding equals the input only when the leftover is
empty). -/
theorem decode_2718_encoded {data : List Nat} {t : TransactionSigned}
    {rest : List Nat} (h : decode_2718 data = some (t, rest)) :
    encoded_2718 t ++ rest = data := by
  cases data with
  | nil => simp [decode_2718] at h
  | cons b bs =>
    simp only [decode_2718] at h
    by_cases h1 : 0x80 ≤ b
    · rw [if_pos h1] at h
      cases hf : rlp_list_frame (b :: bs) with
      | none => rw [hf] at h; exact Option.noConfusion h
      | some pair =>
        obtain ⟨item, leftover⟩ := pair
        rw [hf] at h
        obtain ⟨rfl, rfl⟩ := Prod.mk.injEq _ _ _ _ ▸ Option.some.injEq _ _ ▸ h
        simpa [encoded_2718] using rlp_list_frame_append hf
    · rw [if_neg h1] at h
      by_cases h2 : 1 ≤ b ∧ b ≤ 4
      · rw [if_pos h2] at h
        cases hf : rlp_list_frame bs with
        | none => rw [hf] at h; exact Option.noConfusion h
        | some pair =>
          obtain ⟨item, leftover⟩ := pair
          rw [hf] at h
          obtain ⟨rfl, rfl⟩ := Prod.mk.injEq _ _ _ _ ▸ Option.some.injEq _ _ ▸ h
          have hb0 : b ≠ 0 := by omega
          simp only [encoded_2718, if_neg hb0, List.cons_append,
            List.cons.injEq, true_and]
          exact rlp_list_frame_append hf
      · rw [if_neg h2] at h
        exact Option.noConfusion h

/-- C4: for every 20-byte Ethereum address `e`, `to_aptos_address e` is
32 bytes long, its first 12 bytes are zero, its last 20 bytes are `e`,
the mapping is injective (it is a total function, hence deterministic),
and on the S1 input it yields the S1 output. -/
theorem to_aptos_address_pads (e : List Nat) (h : e.length = 20) :
    (to_aptos_address e).length = 32 ∧
    (to_aptos_address e).take 12 = List.replicate 12 0 ∧
    (to_aptos_address e).drop 12 = e ∧
    (∀ e', to_aptos_address e = to_aptos_address e' → e = e') ∧
    to_aptos_address s1_eth_address = s1_aptos_address := by
  refine ⟨?_, ?_, ?_, ?_, by decide⟩
  · simp [to_aptos_address, h]
  · rw [to_aptos_address, List.take_append_of_le_length (by simp)]
    simp
  · rw [to_aptos_address, List.drop_append_of_le_length (by simp)]
    simp
  · intro e' he
    exact List.append_cancel_left he

/-- Witness for `to_aptos_address_pads` at the S1 address. -/
theorem to_aptos_address_pads_witness :
    (to_aptos_address s1_eth_address).length = 32 ∧
    (to_aptos_address s1_eth_address).take 12 = List.replicate 12 0 ∧
    (to_aptos_address s1_eth_address).drop 12 = s1_eth_address ∧
    (∀ e', to_aptos_address s1_eth_address = to_aptos_address e' →
        s1_eth_address = e') ∧
    to_aptos_address s1_eth_address = s1_aptos_address :=
  to_aptos_address_pads s1_eth_address (by decide)

/-- C6: `EngineBasicConfig::entry_func` evaluated at configurations with
an explicit `entry_func` key: the configured `entry_func` value is
ignored (the default comes back when `auth_func` is absent), and the
`auth_func` value is returned when that key is present, because the
accessor body reads the `auth_func` field. -/
theorem entry_func_reads_auth_func_key :
    (EngineBasicConfig.mk none none (some "0x42::foo::bar")).entry_func
        = "0x100::evm::transact" ∧
    (EngineBasicConfig.mk none (some "0x7::abc::def")
        (some "0x42::foo::bar")).entry_func = "0x7::abc::def" :=
  ⟨rfl, rfl⟩

/-- C7: on empty input, `send_raw_transaction` fails with the
`EmptyRawTransactionData` JSON-RPC error (message "empty transaction
data") and the adapter call trace is empty. -/
theorem send_raw_transaction_empty_input (env : SendEnv) :
    send_raw_transaction env []
        = (.error (internal_rpc_err "empty transaction data"), []) :=
  rfl

/-- C8: signer recovery with an `s` above `SECP256K1N_HALF` fails on the
strict path; at or below the bound the strict path coincides with the
unchecked path; and the unchecked path performs no bound check and can
succeed where the strict path rejects. -/
theorem recover_signer_eip2_strictness (imp : EcRecoverOracle)
    (sig : Signature) (hash : List Nat) :
    (SECP256K1N_HALF < sig.s →
        recover_signer imp sig hash = .error RecoveryError.recoveryError) ∧
    (¬ SECP256K1N_HALF < sig.s →
        recover_signer imp sig hash = recover_signer_unchecked imp sig hash) ∧
    (∃ imp' : EcRecoverOracle, ∃ sig' : Signature, ∃ hash' a,
        SECP256K1N_HALF < sig'.s ∧
        recover_signer_unchecked imp' sig' hash' = .ok a ∧
        recover_signer imp' sig' hash' = .error RecoveryError.recoveryError) := by
  refine ⟨fun hs => ?_, fun hs => ?_, ?_⟩
  · rw [recover_signer, if_pos hs]
  · rw [recover_signer, if_neg hs]
  · refine ⟨fun _ _ => .ok (List.replicate 20 1),
      { r := 1, s := SECP256K1N_HALF + 1, v := false }, [],
      List.replicate 20 1, Nat.lt_succ_self _, rfl, ?_⟩
    rw [recover_signer, if_pos (Nat.lt_succ_self _)]

/-- Witness for `recover_signer_eip2_strictness` at a concrete oracle, a
concrete high-`s` signature and a concrete low-`s` signature. -/
theorem recover_signer_eip2_strictness_witness :
    recover_signer ec_oracle_const sig_high_s []
        = .error RecoveryError.recoveryError ∧
    recover_signer ec_oracle_const sig_low_s []
        = recover_signer_unchecked ec_oracle_const sig_low_s [] :=
  ⟨(recover_signer_eip2_strictness ec_oracle_const sig_high_s []).1
      (by simp [sig_high_s]),
   (recover_signer_eip2_strictness ec_oracle_const sig_low_s []).2.1
      (by simp [sig_low_s, SECP256K1N_HALF])⟩

/-- C5 counterexample: with the adapter reporting a ledger at block
height 5, `eth_blockNumber` does not return 5 (the handler body is an
`unimplemented!()` placeholder). -/
theorem block_number_not_forwarded :
    EthApi.block_number api_remote_example
        ≠ PanicOr.ok (Except.ok ledger_info_example.block_height) := by
  decide

/-- C5 amended: for every ledger the remote adapter reports,
`eth_chainId` returns its `chain_id` unchanged (the u8 to u64 widening
is exact), while `eth_blockNumber` panics instead of returning the
ledger's `block_height`. -/
theorem chain_id_forwarded_block_number_unimplemented
    (ledger : IndexResponse) (balance : List Nat → Except String Nat) :
    EthApi.chain_id { adapter := RemoteEngineAdapter (.ok ledger) balance }
        = PanicOr.ok (.ok (some ledger.chain_id)) ∧
    EthApi.block_number { adapter := RemoteEngineAdapter (.ok ledger) balance }
        = PanicOr.panicked :=
  ⟨rfl, rfl⟩

/-- C9 counterexample: the unimplemented `eth_protocolVersion` handler
does not surface a JSON-RPC internal error. -/
theorem unimplemented_method_not_internal_error :
    ¬ ∃ s, EthApi.protocol_version api_local
        = PanicOr.ok (Except.error (internal_error s)) := by
  rintro ⟨s, h⟩
  simp [EthApi.protocol_version] at h

/-- C9 amended: every unimplemented handler invocation panics
(`unimplemented!()`), and so does every handler invocation routed
through the local adapter, instead of surfacing a JSON-RPC internal
error; whether the process survives the panic is decided by the HTTP
layer, which is outside this model. -/
theorem unimplemented_and_local_requests_panicked :
    (∀ api, EthApi.protocol_version api = PanicOr.panicked) ∧
    (∀ api, EthApi.block_number api = PanicOr.panicked) ∧
    EthApi.chain_id api_local = PanicOr.panicked ∧
    (∀ a, EthApi.balance api_local a = PanicOr.panicked) :=
  ⟨fun _ => rfl, fun _ => rfl, rfl, fun _ => rfl⟩

/-- C1: every signed transaction `get_aa_transaction` constructs has an
entry-function payload with the parsed `entry_func` member, empty type
arguments and exactly the two arguments `bcs(sender)` and
`bcs(raw_eth_bytes)`, and a `SingleSender` authenticator carrying an
`Abstraction` whose function info is the parsed `auth_func` and whose
auth data is `V1` with empty digest and empty authenticator. -/
theorem get_aa_transaction_shape (c : AAClient) (tx sender : List Nat)
    (sequence_number max_gas_amount gas_unit_price chain_id timeout now : Nat)
    (st : SignedTransaction)
    (h : c.get_aa_transaction tx sender sequence_number max_gas_amount
        gas_unit_price chain_id timeout now = .ok st) :
    (∃ m, MemberId.from_str c.entry_func = some m ∧
        st.raw_txn.payload = TransactionPayload.EntryFunction
          (EntryFunction.new m.module_id m.member_id []
            [bcs_address sender, bcs_bytes tx])) ∧
    (∃ fi, FunctionInfo.from_str c.auth_func = some fi ∧
        st.authenticator = TransactionAuthenticator.SingleSender
          (AccountAuthenticator.Abstraction fi
            (AbstractionAuthData.V1 [] []))) := by
  unfold AAClient.get_aa_transaction at h
  cases hm : MemberId.from_str c.entry_func with
  | none => rw [hm] at h; cases h
  | some m =>
    rw [hm] at h
    simp only [TransactionBuilder.build] at h
    cases hf : FunctionInfo.from_str c.auth_func with
    | none => rw [hf] at h; cases h
    | some fi =>
      rw [hf] at h
      cases h
      exact ⟨⟨m, rfl, rfl⟩, ⟨fi, rfl, rfl⟩⟩

/-- Witness for `get_aa_transaction_shape` at the default configuration
strings and the concrete inputs of `aa_signed_transaction_example`. -/
theorem get_aa_transaction_shape_witness :
    (∃ m, MemberId.from_str aa_client_example.entry_func = some m ∧
        aa_signed_transaction_example.raw_txn.payload
          = TransactionPayload.EntryFunction
            (EntryFunction.new m.module_id m.member_id []
              [bcs_address (List.replicate 32 0), bcs_bytes [1, 2, 3]])) ∧
    (∃ fi, FunctionInfo.from_str aa_client_example.auth_func = some fi ∧
        aa_signed_transaction_example.authenticator
          = TransactionAuthenticator.SingleSender
            (AccountAuthenticator.Abstraction fi
              (AbstractionAuthData.V1 [] []))) :=
  get_aa_transaction_shape aa_client_example [1, 2, 3] (List.replicate 32 0)
    7 200 1 4 30 1000 aa_signed_transaction_example (by decide)

/-- C10: `get_aa_transaction` returns a transaction exactly when both
configured strings parse; when either fails to parse the call panics
(there is no error return), and the configuration accessor hands any
string, parseable or not, through unvalidated. -/
theorem get_aa_transaction_requires_parseable_config (c : AAClient)
    (tx sender : List Nat)
    (sequence_number max_gas_amount gas_unit_price chain_id timeout now : Nat) :
    ((∃ st, c.get_aa_transaction tx sender sequence_number max_gas_amount
          gas_unit_price chain_id timeout now = .ok st) ↔
        (MemberId.from_str c.entry_func).isSome ∧
        (FunctionInfo.from_str c.auth_func).isSome) ∧
    ((MemberId.from_str c.entry_func = none ∨
        FunctionInfo.from_str c.auth_func = none) →
      c.get_aa_transaction tx sender sequence_number max_gas_amount
          gas_unit_price chain_id timeout now = .panicked) ∧
    (∀ ct s ef, (EngineBasicConfig.mk ct (some s) ef).auth_func = s) := by
  unfold AAClient.get_aa_transaction
  cases hm : MemberId.from_str c.entry_func with
  | none =>
    refine ⟨?_, fun _ => rfl, fun ct s ef => rfl⟩
    simp
  | some m =>
    cases hf : FunctionInfo.from_str c.auth_func with
    | none =>
      refine ⟨?_, fun _ => ?_, fun ct s ef => rfl⟩
      · simp [TransactionBuilder.build]
      · simp [TransactionBuilder.build]
    | some fi =>
      refine ⟨?_, fun hbad => ?_, fun ct s ef => rfl⟩
      · simp [TransactionBuilder.build]
      · rcases hbad with hbad | hbad <;> exact Option.noConfusion hbad

/-- Witness for `get_aa_transaction_requires_parseable_config` at a
client whose entry function string does not parse. -/
theorem get_aa_transaction_requires_parseable_config_witness :
    aa_client_bad.get_aa_transaction [] [] 0 0 0 0 0 0 = PanicOr.panicked :=
  (get_aa_transaction_requires_parseable_config
      aa_client_bad [] [] 0 0 0 0 0 0).2.1 (Or.inl (by decide))

/-- C2: whenever `send_raw_transaction` succeeds its adapter call trace
is exactly one `get_account` followed by exactly one
`submit_transaction`, and whenever `get_account` fails for the request
no `submit_transaction` call appears in the trace. -/
theorem send_raw_transaction_adapter_call_trace (env : SendEnv)
    (bytes : List Nat) :
    ((∃ h, (send_raw_transaction env bytes).1 = .ok h) →
        ∃ s, (send_raw_transaction env bytes).2
          = [AdapterCall.getAccount s,
             AdapterCall.submitTransaction s bytes]) ∧
    (∀ e, env.get_account_result = .error e →
        ∀ s t, AdapterCall.submitTransaction s t
          ∉ (send_raw_transaction env bytes).2) := by
  unfold send_raw_transaction
  cases hr : recover_raw_transaction env bytes with
  | error e =>
    exact ⟨fun ⟨h, hh⟩ => Except.noConfusion hh, fun e he s t => by simp⟩
  | ok recovered =>
    unfold adapter_submit_transaction
    cases ha : env.get_account_result with
    | error e =>
      refine ⟨fun ⟨h, hh⟩ => Except.noConfusion hh, fun e' he' s t => by simp⟩
    | ok account =>
      cases hs : env.submit_result with
      | error e =>
        exact ⟨fun ⟨h, hh⟩ => Except.noConfusion hh,
          fun e' he' s t => Except.noConfusion he'⟩
      | ok p =>
        exact ⟨fun _ => ⟨to_aptos_address recovered.signer, rfl⟩,
          fun e' he' s t => Except.noConfusion he'⟩

/-- Witness for `send_raw_transaction_adapter_call_trace`: a concrete
fully successful request produces the two-call trace, and a concrete
request whose account fetch fails issues no submission. -/
theorem send_raw_transaction_adapter_call_trace_witness :
    (∃ s, (send_raw_transaction send_env_example [0xc0]).2
        = [AdapterCall.getAccount s,
           AdapterCall.submitTransaction s [0xc0]]) ∧
    (∀ s t, AdapterCall.submitTransaction s t
        ∉ (send_raw_transaction send_env_no_account [0xc0]).2) :=
  ⟨(send_raw_transaction_adapter_call_trace send_env_example [0xc0]).1
      ⟨[0xc0], by decide⟩,
   (send_raw_transaction_adapter_call_trace send_env_no_account [0xc0]).2
      "account not found" (by decide)⟩

/-- C3 counterexample: on a valid legacy transaction followed by one
trailing junk byte the pipeline succeeds, yet the hash returned is
keccak256 of the consumed ten-byte envelope, which differs from
keccak256 of the eleven input bytes (the decode cursor never checks the
buffer is exhausted). -/
theorem send_raw_transaction_trailing_bytes_hash :
    (send_raw_transaction send_env_example legacy_tx_with_trailing).1
        = .ok (send_env_example.keccak256 legacy_tx_example) ∧
    send_env_example.keccak256 legacy_tx_example
        ≠ send_env_example.keccak256 legacy_tx_with_trailing := by
  constructor <;> decide

/-- C3 amended: whenever `send_raw_transaction` succeeds, the hash
handed back to the caller is keccak256 of the consumed EIP-2718
envelope, a prefix of the input bytes — equal to keccak256 of the whole
input exactly when the envelope leaves no trailing bytes — and it stays
that same value whatever pending-transaction hash the Aptos node
acknowledges, so it is never taken from the node's acknowledgement. -/
theorem send_raw_transaction_returns_prefix_hash (env : SendEnv)
    (bytes ret : List Nat) (calls : List AdapterCall)
    (h : send_raw_transaction env bytes = (.ok ret, calls)) :
    ∃ t rest, decode_2718 bytes = some (t, rest) ∧
      encoded_2718 t ++ rest = bytes ∧
      ret = env.keccak256 (encoded_2718 t) ∧
      (rest = [] → ret = env.keccak256 bytes) ∧
      ∀ p, (send_raw_transaction { env with submit_result := .ok p } bytes).1
          = .ok ret := by
  by_cases hb : bytes = []
  · subst hb
    simp [send_raw_transaction, recover_raw_transaction] at h
  · cases hd : decode_2718 bytes with
    | none =>
      simp [send_raw_transaction, recover_raw_transaction, hb, hd] at h
    | some pair =>
      obtain ⟨t, leftover⟩ := pair
      cases hrec : env.recover t with
      | error e =>
        simp [send_raw_transaction, recover_raw_transaction, hb, hd, hrec] at h
      | ok signer =>
        cases ha : env.get_account_result with
        | error e =>
          simp [send_raw_transaction, recover_raw_transaction,
            adapter_submit_transaction, hb, hd, hrec, ha] at h
        | ok account =>
          cases hs : env.submit_result with
          | error e =>
            simp [send_raw_transaction, recover_raw_transaction,
              adapter_submit_transaction, hb, hd, hrec, ha, hs] at h
          | ok p0 =>
            simp only [send_raw_transaction, recover_raw_transaction,
              adapter_submit_transaction, if_neg hb, hd, hrec, ha, hs,
              Prod.mk.injEq, Except.ok.injEq] at h
            have hsplit := decode_2718_encoded hd
            refine ⟨t, leftover, rfl, hsplit, h.1.symm, fun hre => ?_, fun p => ?_⟩
            · rw [hre, List.append_nil] at hsplit
              rw [h.1.symm, hsplit]
            · simp only [send_raw_transaction, recover_raw_transaction,
                adapter_submit_transaction, if_neg hb, hd, hrec, ha]
              rw [h.1]

/-- Witness for `send_raw_transaction_returns_prefix_hash` at a
concrete successful request over the one-byte legacy envelope `[0xc0]`,
which consumes the whole input. -/
theorem send_raw_transaction_returns_prefix_hash_witness :
    ∃ t rest, decode_2718 [0xc0] = some (t, rest) ∧
      encoded_2718 t ++ rest = [0xc0] ∧
      [0xc0] = send_env_example.keccak256 (encoded_2718 t) ∧
      (rest = [] → [0xc0] = send_env_example.keccak256 [0xc0]) ∧
      ∀ p, (send_raw_transaction
          { send_env_example with submit_result := .ok p } [0xc0]).1
        = .ok [0xc0] :=
  send_raw_transaction_returns_prefix_hash send_env_example [0xc0] [0xc0]
    [AdapterCall.getAccount (to_aptos_address (List.replicate 20 9)),
     AdapterCall.submitTransaction (to_aptos_address (List.replicate 20 9))
       [0xc0]]
    (by decide)

